import Mathlib

/-!
Verification of the agent-skills repository's Jira workflow scripts
(work-on-ticket: start-work.py, fetch-ticket.py, jira_config.py).

Strings are modelled as lists of Unicode code points (Python `str` is a
sequence of code points).  The character-class predicates implement the
ASCII fragment of Python's `str.lower` and of the `re` classes `\w` and
`\s`; theorems about `slugify` therefore carry an ASCII hypothesis on the
input, the domain on which the embedding is faithful.
-/

deriving instance DecidableEq for Except

namespace AgentSkills

/-- A Python string: its list of code points. -/
abbrev Str := List Nat

/-- Code points of a Lean string literal, for writing concrete constants. -/
def str (s : String) : Str := s.data.map Char.toNat

/-- The code point is an ASCII uppercase letter. -/
def isUpperCode (n : Nat) : Bool := decide (65 ≤ n ∧ n ≤ 90)

/-- Python `str.lower` on one code point (ASCII fragment). -/
def pyLower (n : Nat) : Nat := if 65 ≤ n ∧ n ≤ 90 then n + 32 else n

/-- Python regex class `\w` on one code point (ASCII fragment):
letters, digits and the underscore. -/
def isWordCode (n : Nat) : Bool :=
  decide ((97 ≤ n ∧ n ≤ 122) ∨ (65 ≤ n ∧ n ≤ 90) ∨ (48 ≤ n ∧ n ≤ 57) ∨ n = 95)

/-- Python regex class `\s` on one code point (ASCII fragment):
space, tab, newline, vertical tab, form feed, carriage return. -/
def isSpaceCode (n : Nat) : Bool := decide (n = 32 ∨ (9 ≤ n ∧ n ≤ 13))

/-- The regex class used by the second substitution in `slugify`:
a hyphen or a whitespace character. -/
def dashy (n : Nat) : Bool := n == 45 || isSpaceCode n

/-- Complement of the class removed by the first substitution in `slugify`:
the code points kept by re.sub of the class complement of word, space, hyphen. -/
def keepCode (n : Nat) : Bool := isWordCode n || isSpaceCode n || n == 45

/-- Collapse every maximal run of hyphen/whitespace characters to a single
hyphen: the effect of re.sub of one-or-more hyphen-or-space to a hyphen. -/
def collapseRuns : Str → Str
  | [] => []
  | [c] => if dashy c then [45] else [c]
  | c1 :: c2 :: rest =>
    if dashy c1 then
      if dashy c2 then collapseRuns (c2 :: rest)
      else 45 :: collapseRuns (c2 :: rest)
    else c1 :: collapseRuns (c2 :: rest)

/-- Python `text.strip(hyphen)`: remove hyphens from both ends. -/
def stripHyphens (l : Str) : Str :=
  ((l.dropWhile (fun c => c == 45)).reverse.dropWhile (fun c => c == 45)).reverse

/-- start-work.py slugify: lowercase, drop characters outside word/space/hyphen,
collapse hyphen/space runs to one hyphen, strip hyphens at the ends, first 50. -/
def slugify (text : Str) : Str :=
  (stripHyphens (collapseRuns ((text.map pyLower).filter keepCode))).take 50

/-- The character set the spec claims for slugify output: lowercase ASCII
letters, digits, hyphen. -/
def isClaimedSlugCode (n : Nat) : Bool :=
  decide ((97 ≤ n ∧ n ≤ 122) ∨ (48 ≤ n ∧ n ≤ 57) ∨ n = 45)

/-- The character set slugify output actually has: the claimed one plus
the underscore, which the regex class of word characters keeps. -/
def isSlugCode (n : Nat) : Bool :=
  decide ((97 ≤ n ∧ n ≤ 122) ∨ (48 ≤ n ∧ n ≤ 57) ∨ n = 95 ∨ n = 45)

/-- The code point is ASCII. -/
def isAsciiCode (n : Nat) : Bool := decide (n ≤ 127)

/-- Python `text.strip(hyphen)` acting on the right end only. -/
def rstripHyphens (l : Str) : Str :=
  (l.reverse.dropWhile (fun c => c == 45)).reverse

/-- No two adjacent characters are both in the hyphen/space class. -/
def noAdjDashy : Str → Bool
  | [] => true
  | [_] => true
  | c1 :: c2 :: rest => !(dashy c1 && dashy c2) && noAdjDashy (c2 :: rest)

/-! ### C3 and C4 -/

/-- Concrete input refuting the claimed slugify character set and the claimed
absence of a trailing hyphen: an underscore followed by forty-eight letters,
a hyphen, and three more letters. -/
def slugCexCharset : Str := 95 :: (List.replicate 48 97 ++ 45 :: str "xyz")

/-- Concrete input refuting slugify idempotence: forty-nine letters, then a
hyphen and one letter, so that the 50-character cut ends on the hyphen. -/
def slugCexIdem : Str := List.replicate 49 97 ++ str "-b"

/-! ### HTTP client model

The requests library is modelled by the outcome of one HTTP round trip: a
response with a status code and a decoded body, or a connection failure
(requests.exceptions.RequestException that is not an HTTPError).
response.raise_for_status raises exactly for status codes 400-599. -/

/-- Outcome of one HTTP round trip. -/
inductive ReqOutcome (α : Type) where
  | response (status : Nat) (body : α)
  | connFail

deriving DecidableEq

/-- An exception raised by a session call. -/
inductive JiraError where
  | httpStatus (code : Nat)
  | connectionError

deriving DecidableEq

/-- response.raise_for_status followed by returning the decoded body. -/
def raiseForStatus {α : Type} : ReqOutcome α → Except JiraError α
  | .response s b => if 400 ≤ s ∧ s < 600 then .error (.httpStatus s) else .ok b
  | .connFail => .error .connectionError

/-- One available transition: a name and an opaque id. -/
structure Transition where
  name : Str
  id : Str

deriving DecidableEq

/-- A GET request as the two clients build it: the url and the optional
fields projection parameter. -/
structure HttpGet where
  url : Str
  fieldsParam : Option Str

deriving DecidableEq

/-- start-work.py JiraClient.get_issue: a GET with no params whose HTTP
errors propagate to the caller (main catches them and exits 1). -/
def sw_get_issue {α : Type} (out : ReqOutcome α) : Except JiraError α :=
  raiseForStatus out

/-- The request start-work.py JiraClient.get_issue sends: no field
projection parameter. -/
def sw_get_issue_request (base key : Str) : HttpGet :=
  { url := base ++ str "/rest/api/3/issue/" ++ key, fieldsParam := none }

/-- start-work.py JiraClient.get_transitions: GET, raise_for_status, then
the transitions key of the body defaulted to the empty list.  Failures
propagate (no try block in this client). -/
def sw_get_transitions (out : ReqOutcome (Option (List Transition))) :
    Except JiraError (List Transition) :=
  match raiseForStatus out with
  | .ok b => .ok (b.getD [])
  | .error e => .error e

/-- fetch-ticket.py JiraClient.get_transitions: same GET but wrapped in a
bare try/except returning the empty list on any raised failure. -/
def ft_get_transitions (out : ReqOutcome (Option (List Transition))) :
    List Transition :=
  match raiseForStatus out with
  | .ok b => b.getD []
  | .error _ => []

/-- The fixed field projection fetch-ticket.py JiraClient.get_issue sends. -/
def ft_get_issue_fields : Str :=
  str "summary,description,status,priority,assignee,reporter,issuetype,created,updated,comment,subtasks,parent"

/-- The request fetch-ticket.py JiraClient.get_issue sends. -/
def ft_get_issue_request (base key : Str) : HttpGet :=
  { url := base ++ str "/rest/api/3/issue/" ++ key,
    fieldsParam := some ft_get_issue_fields }

/-- The distinct ways fetch-ticket.py JiraClient.get_issue prints an error
and calls sys.exit(1). -/
inductive FetchAbort where
  | authFailed
  | notFound (key : Str)
  | httpError (code : Nat)
  | connectionError

deriving DecidableEq

/-- fetch-ticket.py JiraClient.get_issue on a round-trip outcome: on an
HTTPError it distinguishes 401 and 404, otherwise reports the raw error; on
a connection failure it reports that; each error path exits the process
with code 1 (modelled as Except.error); on success the decoded body is
returned unmodified. -/
def ft_get_issue {α : Type} (key : Str) (out : ReqOutcome α) :
    Except FetchAbort α :=
  match out with
  | .response s b =>
    if 400 ≤ s ∧ s < 600 then
      if s = 401 then .error .authFailed
      else if s = 404 then .error (.notFound key)
      else .error (.httpError s)
    else .ok b
  | .connFail => .error .connectionError

/-- Case-insensitive transition match from start-work.py transition_issue:
the first transition whose lowercased name equals the lowercased requested
name; Python treats a falsy (empty) id like a missing one. -/
def findTransitionId (ts : List Transition) (name : Str) : Option Str :=
  match ts.find? (fun t => t.name.map pyLower == name.map pyLower) with
  | some t => if t.id = [] then none else some t.id
  | none => none

/-- Result of start-work.py JiraClient.transition_issue together with
whether the POST round trip was attempted. -/
structure TransitionCall where
  result : Except JiraError Bool
  posted : Bool

deriving DecidableEq

/-- start-work.py JiraClient.transition_issue: fetch the transitions (this
client's get_transitions raises on failure), match the name
case-insensitively, return false without posting when there is no match,
otherwise POST the transition id and raise on a failed POST. -/
def transition_issue (getOut : ReqOutcome (Option (List Transition)))
    (postOut : ReqOutcome Unit) (name : Str) : TransitionCall :=
  match sw_get_transitions getOut with
  | .error e => { result := .error e, posted := false }
  | .ok ts =>
    match findTransitionId ts name with
    | none => { result := .ok false, posted := false }
    | some _ =>
      match raiseForStatus postOut with
      | .ok _ => { result := .ok true, posted := true }
      | .error e => { result := .error e, posted := true }

/-- start-work.py JiraClient.add_comment: POST the comment, raising on any
HTTP failure, returning True otherwise. -/
def add_comment (postOut : ReqOutcome Unit) : Except JiraError Bool :=
  match raiseForStatus postOut with
  | .ok _ => .ok true
  | .error e => .error e

/-! ### Configuration model (jira_config.py)

The .jira-config file is modelled as parsed by configparser: a DEFAULT
section of key/value pairs, whose entries are inherited by every named
section, plus the named sections.  The environment is modelled by the three
optional variables the code reads. -/

/-- The parsed config file. -/
structure IniFile where
  defaults : List (Str × Str)
  sections : List (Str × List (Str × Str))

/-- First value for a key in a key/value list. -/
def lookupKey (kvs : List (Str × Str)) (k : Str) : Option Str :=
  match kvs.find? (fun kv => kv.fst == k) with
  | some kv => some kv.snd
  | none => none

/-- The named section of the file, if present. -/
def lookupSection (ini : IniFile) (name : Str) : Option (List (Str × Str)) :=
  match ini.sections.find? (fun s => s.fst == name) with
  | some s => some s.snd
  | none => none

/-- configparser section lookup: a key falls back to the DEFAULT section. -/
def sectionGet (ini : IniFile) (sec : List (Str × Str)) (k : Str) : Option Str :=
  match lookupKey sec k with
  | some v => some v
  | none => lookupKey ini.defaults k

/-- The profile name get_profile uses when none is passed: the
default_profile key of the DEFAULT section, falling back to ihkreddy. -/
def resolveProfileName (ini : IniFile) (p : Option Str) : Str :=
  p.getD ((lookupKey ini.defaults (str "default_profile")).getD (str "ihkreddy"))

/-- The credential triple as get_profile returns it: each field may be
absent (configparser .get returns None for a missing key; os.environ.get
returns None for an unset variable). -/
structure Credentials where
  url : Option Str
  email : Option Str
  token : Option Str

deriving DecidableEq

/-- The environment variables jira_config.py reads. -/
structure EnvVars where
  jiraUrl : Option Str
  jiraEmail : Option Str
  jiraToken : Option Str

deriving DecidableEq

/-- The hard-coded default endpoint used when JIRA_URL is unset. -/
def default_jira_url : Str := str "https://ihkreddy.atlassian.net"

/-- The environment branch of get_profile. -/
def env_credentials (env : EnvVars) : Credentials :=
  { url := some (env.jiraUrl.getD default_jira_url),
    email := env.jiraEmail,
    token := env.jiraToken }

/-- JiraConfig.get_profile: when the config file exists and the resolved
profile section is present, all three fields come from that section (no
per-field environment fallback); otherwise the whole triple comes from the
environment. -/
def get_profile (fileExists : Bool) (ini : IniFile) (env : EnvVars)
    (profileName : Option Str) : Credentials :=
  if fileExists then
    match lookupSection ini (resolveProfileName ini profileName) with
    | some sec =>
      { url := sectionGet ini sec (str "url"),
        email := sectionGet ini sec (str "email"),
        token := sectionGet ini sec (str "token") }
    | none => env_credentials env
  else env_credentials env

/-- A credential field is missing when it is absent or the empty string
(Python falsiness of None and of the empty string). -/
def isMissingField : Option Str → Bool
  | none => true
  | some v => v.isEmpty

/-- The field validate_profile reports: the first missing one in the order
url, email, token. -/
def first_missing (c : Credentials) : Option Str :=
  if isMissingField c.url then some (str "url")
  else if isMissingField c.email then some (str "email")
  else if isMissingField c.token then some (str "token")
  else none

/-- JiraConfig.validate_profile: true when no required field is missing. -/
def validate_profile (c : Credentials) : Bool := (first_missing c).isNone

/-- get_config: resolve the profile and validate it; on a missing field the
process prints that field and exits 1 (modelled as Except.error carrying
the field name); otherwise the full triple is returned. -/
def get_config (fileExists : Bool) (ini : IniFile) (env : EnvVars)
    (profileName : Option Str) : Except Str Credentials :=
  match first_missing (get_profile fileExists ini env profileName) with
  | some k => .error k
  | none => .ok (get_profile fileExists ini env profileName)

/-! ### C8 and C9 -/

/-- A config file whose work section sets only the url. -/
def cexIni : IniFile :=
  { defaults := [],
    sections := [(str "work", [(str "url", str "https://jira.example.com")])] }

/-- An environment that does supply the email and the token. -/
def cexEnv : EnvVars :=
  { jiraUrl := none,
    jiraEmail := some (str "dev@example.com"),
    jiraToken := some (str "tok") }

/-- An environment with all three variables unset. -/
def emptyEnv : EnvVars := { jiraUrl := none, jiraEmail := none, jiraToken := none }

/-! ### Atlassian Document Format model (extract_text_from_adf)

An ADF document is a tree of JSON objects: each node may carry a type, a
text field, and a content array of child nodes.  The content key may be
absent, which differs from an empty array.  AdfList is the content array
(a mutual inductive so that recursion and induction stay structural). -/

mutual

inductive Adf where
  | node (ty : Option Str) (tx : Option Str) (content : Option AdfList)

inductive AdfList where
  | nil
  | cons (hd : Adf) (tl : AdfList)

end

/-- The text field of a node, defaulted to the empty string as
node.get(text, empty) does. -/
def nodeText : Adf → Str
  | .node _ tx _ => tx.getD []

mutual

/-- The inner extract closure of extract_text_from_adf: a node of type text
contributes its text field (defaulted to empty) and its children are not
visited; otherwise a node with a content key has its children visited in
order; any other node contributes nothing. -/
def collectTexts : Adf → List Str
  | .node ty tx content =>
    if ty = some (str "text") then [tx.getD []]
    else
      match content with
      | some cs => collectTextsList cs
      | none => []

def collectTextsList : AdfList → List Str
  | .nil => []
  | .cons a as => collectTexts a ++ collectTextsList as

end

/-- extract_text_from_adf: the collected parts joined by single spaces. -/
def extract_text_from_adf (adf : Adf) : Str :=
  List.intercalate (str " ") (collectTexts adf)

mutual

/-- Specification-side recursion: the descendant nodes of type text, in
depth-first document order, never descending below a text node. -/
def textNodes : Adf → List Adf
  | .node ty tx content =>
    if ty = some (str "text") then [.node ty tx content]
    else
      match content with
      | some cs => textNodesList cs
      | none => []

def textNodesList : AdfList → List Adf
  | .nil => []
  | .cons a as => textNodes a ++ textNodesList as

end

/-- A two-paragraph document exercising the C10 theorem: a paragraph of two
text nodes and a text node that itself (invalidly) carries children. -/
def sampleDoc : Adf :=
  Adf.node (some (str "doc")) none (some (AdfList.cons
    (Adf.node (some (str "paragraph")) none (some (AdfList.cons
      (Adf.node (some (str "text")) (some (str "Fix")) none)
      (AdfList.cons (Adf.node (some (str "text")) (some (str "bug")) none)
        AdfList.nil))))
    (AdfList.cons
      (Adf.node (some (str "text")) (some (str "now")) (some (AdfList.cons
        (Adf.node (some (str "text")) (some (str "hidden")) none)
        AdfList.nil)))
      AdfList.nil)))

/-! ### Orchestrator model (start-work.py main)

The model covers main from the ticket fetch onward, over a world fixing
the outcome of each external interaction: the issue GET, the transitions
GET, the transition POST, the comment POST, and the git commands.  Source
lines 224-226 and 235-236 are syntactically broken (an unterminated
add_argument call and a duplicated client construction); following the
spec's design note these are treated as a defect, the client being
constructed once, and every later step follows the source text. -/

/-- start-work.py determine_branch_type: fixed lookup on the lowercased
issue type, defaulting to feature. -/
def determine_branch_type (issue_type : Str) : Str :=
  let t := issue_type.map pyLower
  if t = str "bug" then str "bugfix"
  else if t = str "story" then str "feature"
  else if t = str "task" then str "feature"
  else if t = str "epic" then str "feature"
  else if t = str "subtask" then str "feature"
  else if t = str "improvement" then str "feature"
  else str "feature"

/-- The branch name create_branch composes: type, slash, lowercased ticket
key, hyphen, slugified summary. -/
def branch_name (ticket_key summary branch_type : Str) : Str :=
  branch_type ++ str "/" ++ ticket_key.map pyLower ++ str "-" ++ slugify summary

/-- Behaviour of the git commands in this run: whether git rev-parse
succeeds (the directory is a work tree) and whether the checkout commands
succeed. -/
structure GitWorld where
  isRepo : Bool
  checkoutOk : Bool

deriving DecidableEq

/-- The local repository state create_branch reads and writes: the set of
local branch names and the checked-out branch. -/
structure GitState where
  branches : List Str
  current : Option Str

deriving DecidableEq

/-- The externally visible events of one orchestrator run, in order. -/
inductive Ev where
  | fetchGet
  | gitRevParse
  | gitBranchList
  | gitCheckoutExisting (name : Str)
  | gitCheckoutNew (name : Str)
  | getTransitions
  | postTransition
  | postComment
  | warnStatus
  | warnComment
  | printReady (message : Str)

deriving DecidableEq

/-- The event is a git command (any branch operation). -/
def isGitEv : Ev → Bool
  | .gitRevParse => true
  | .gitBranchList => true
  | .gitCheckoutExisting _ => true
  | .gitCheckoutNew _ => true
  | _ => false

/-- The event is a write to the remote ticket (a POST). -/
def isRemoteWriteEv : Ev → Bool
  | .postTransition => true
  | .postComment => true
  | _ => false

/-- start-work.py create_branch: compose the name; fail if not inside a
work tree; if a local branch of that name exists, check it out and return
the name; otherwise create and check out a fresh branch; a failing git
command yields None (the except branch returning None). -/
def create_branch (gw : GitWorld) (st : GitState)
    (ticket_key summary branch_type : Str) :
    Option Str × GitState × List Ev :=
  if gw.isRepo then
    if st.branches.contains (branch_name ticket_key summary branch_type) then
      if gw.checkoutOk then
        (some (branch_name ticket_key summary branch_type),
          { st with current := some (branch_name ticket_key summary branch_type) },
          [.gitRevParse, .gitBranchList,
            .gitCheckoutExisting (branch_name ticket_key summary branch_type)])
      else
        (none, st,
          [.gitRevParse, .gitBranchList,
            .gitCheckoutExisting (branch_name ticket_key summary branch_type)])
    else
      if gw.checkoutOk then
        (some (branch_name ticket_key summary branch_type),
          { branches := branch_name ticket_key summary branch_type :: st.branches,
            current := some (branch_name ticket_key summary branch_type) },
          [.gitRevParse, .gitBranchList,
            .gitCheckoutNew (branch_name ticket_key summary branch_type)])
      else
        (none, st,
          [.gitRevParse, .gitBranchList,
            .gitCheckoutNew (branch_name ticket_key summary branch_type)])
  else (none, st, [.gitRevParse])

/-- The fields of the fetched issue that main consumes. -/
structure Issue where
  summary : Option Str
  issuetypeName : Option Str

deriving DecidableEq

/-- Outcomes of the external interactions of one run. -/
structure World where
  fetch : ReqOutcome Issue
  transitionsGet : ReqOutcome (Option (List Transition))
  transitionPost : ReqOutcome Unit
  commentPost : ReqOutcome Unit

/-- The command-line arguments of start-work.py. -/
structure Args where
  ticket : Str
  branchType : Option Str
  noStatusUpdate : Bool
  noComment : Bool
  profile : Option Str

/-- The events of the status-update step: the transitions GET, the POST
when a matching transition was found, and the caught-exception warning
main prints when transition_issue raises. -/
def status_update_events (w : World) : List Ev :=
  Ev.getTransitions ::
    ((if (transition_issue w.transitionsGet w.transitionPost
        (str "In Progress")).posted then [Ev.postTransition] else []) ++
      (match (transition_issue w.transitionsGet w.transitionPost
          (str "In Progress")).result with
        | .error _ => [Ev.warnStatus]
        | .ok _ => []))

/-- The events of the comment step: the POST and the caught-exception
warning main prints when add_comment raises. -/
def add_comment_events (w : World) : List Ev :=
  Ev.postComment ::
    (match add_comment w.commentPost with
      | .error _ => [Ev.warnComment]
      | .ok _ => [])

/-- The final success line main prints. -/
def ready_message (ticket : Str) : Str :=
  str "Ready to work on " ++ ticket ++ str "!"

/-- The observable result of one run: the process exit code, the event
trace, and the branch main obtained. -/
structure RunResult where
  exitCode : Nat
  events : List Ev
  branch : Option Str

/-- start-work.py main from the fetch onward: fetch (exit 1 on any raised
error), display, derive the branch type (flag overriding auto-detection),
create the branch (exit 1 on failure), optionally update status and
comment with failures downgraded to warnings, then print the success
summary and finish with exit code 0. -/
def mainRun (args : Args) (w : World) (gw : GitWorld) (g0 : GitState) :
    RunResult × GitState :=
  match sw_get_issue w.fetch with
  | .error _ => ({ exitCode := 1, events := [.fetchGet], branch := none }, g0)
  | .ok issue =>
    match create_branch gw g0 args.ticket
        (issue.summary.getD (str "no-summary"))
        (args.branchType.getD (determine_branch_type
          (issue.issuetypeName.getD (str "Story")))) with
    | (none, g1, gitEvs) =>
      ({ exitCode := 1, events := Ev.fetchGet :: gitEvs, branch := none }, g1)
    | (some name, g1, gitEvs) =>
      ({ exitCode := 0,
         events := Ev.fetchGet :: gitEvs ++
           (if args.noStatusUpdate then [] else status_update_events w) ++
           (if args.noComment then [] else add_comment_events w) ++
           [Ev.printReady (ready_message args.ticket)],
         branch := some name }, g1)

/-- The branch name main derives for a fetched issue: summary and issue
type defaulted as in main, the branch-type flag overriding the
auto-detection. -/
def main_branch_name (args : Args) (issue : Issue) : Str :=
  branch_name args.ticket (issue.summary.getD (str "no-summary"))
    (args.branchType.getD (determine_branch_type
      (issue.issuetypeName.getD (str "Story"))))

/-- A ticket with a summary and an issue type, for the witnesses. -/
def sampleIssue : Issue :=
  { summary := some (str "Fix Login Bug"), issuetypeName := some (str "Bug") }

/-- The default command line: only the ticket key. -/
def sampleArgs : Args :=
  { ticket := str "PROJ-123", branchType := none, noStatusUpdate := false,
    noComment := false, profile := none }

/-- A work tree on main whose git commands succeed. -/
def gwOk : GitWorld := { isRepo := true, checkoutOk := true }

/-- A repository that only has a main branch. -/
def gMain : GitState :=
  { branches := [str "main"], current := some (str "main") }

/-- A world whose issue GET returns 404. -/
def w404 : World :=
  { fetch := .response 404 sampleIssue,
    transitionsGet := .response 200 (some []),
    transitionPost := .response 204 (),
    commentPost := .response 201 () }

/-- A world whose fetch succeeds but whose transition POST and comment
POST both come back HTTP 500. -/
def wAdvisory500 : World :=
  { fetch := .response 200 sampleIssue,
    transitionsGet := .response 200
      (some [⟨str "In Progress", str "21"⟩]),
    transitionPost := .response 500 (),
    commentPost := .response 500 () }

/-! ## Theorems -/

example : slugify (str "Hello, World!") = str "hello-world" := by decide

example : slugify (str "  --Fix:  the bug-- ") = str "fix-the-bug" := by decide

theorem stripHyphens_eq_rstrip (l : Str) :
    stripHyphens l = rstripHyphens (l.dropWhile (fun c => c == 45)) := rfl

/-! ### Pointwise facts about the character classes -/

theorem pyLower_not_upper (n : Nat) : isUpperCode (pyLower n) = false := by
  simp only [pyLower, isUpperCode, decide_eq_false_iff_not]
  split <;> omega

theorem slug_code_facts (n : Nat) (h : isSlugCode n = true) :
    pyLower n = n ∧ keepCode n = true ∧ isSpaceCode n = false ∧
      (dashy n = true → n = 45) ∧ isUpperCode n = false := by
  simp only [isSlugCode, decide_eq_true_eq] at h
  refine ⟨?_, ?_, ?_, ?_, ?_⟩
  · simp only [pyLower]; split <;> omega
  · simp only [keepCode, isWordCode, isSpaceCode, Bool.or_eq_true, decide_eq_true_eq,
      beq_iff_eq]
    omega
  · simp only [isSpaceCode, decide_eq_false_iff_not]; omega
  · simp only [dashy, isSpaceCode, Bool.or_eq_true, beq_iff_eq, decide_eq_true_eq]
    omega
  · simp only [isUpperCode, decide_eq_false_iff_not]; omega

theorem kept_lowered_is_slug_or_space (n : Nat)
    (hk : keepCode n = true) (hu : isUpperCode n = false) :
    isSlugCode n = true ∨ isSpaceCode n = true := by
  simp only [keepCode, isWordCode, isSpaceCode, isSlugCode, isUpperCode, Bool.or_eq_true,
    decide_eq_true_eq, decide_eq_false_iff_not, beq_iff_eq] at *
  omega

/-! ### Membership and head lemmas for the slugify pipeline -/

theorem mem_dropWhile_imp {p : Nat → Bool} {l : Str} {a : Nat}
    (h : a ∈ l.dropWhile p) : a ∈ l := by
  induction l with
  | nil => simpa using h
  | cons b t ih =>
    rw [List.dropWhile_cons] at h
    split at h
    · exact List.mem_cons_of_mem _ (ih h)
    · exact h

theorem head?_dropWhile_not {p : Nat → Bool} {l : Str} {a : Nat}
    (h : (l.dropWhile p).head? = some a) : p a = false := by
  induction l with
  | nil => simp at h
  | cons b t ih =>
    rw [List.dropWhile_cons] at h
    split at h
    · exact ih h
    · simp only [List.head?_cons, Option.some.injEq] at h
      subst h
      simp_all

theorem dropWhile_of_head {p : Nat → Bool} {l : Str}
    (h : ∀ a, l.head? = some a → p a = false) : l.dropWhile p = l := by
  cases l with
  | nil => rfl
  | cons b t => rw [List.dropWhile_cons, h b rfl]; simp

theorem head?_append_some {l₁ l₂ : Str} {a : Nat} (h : l₁.head? = some a) :
    (l₁ ++ l₂).head? = some a := by
  cases l₁ with
  | nil => simp at h
  | cons b t => simpa using h

/-- The right strip is an initial segment: it can be completed to the list. -/
theorem rstrip_append (l : Str) :
    rstripHyphens l ++ (l.reverse.takeWhile (fun c => c == 45)).reverse = l := by
  rw [rstripHyphens, ← List.reverse_append, List.takeWhile_append_dropWhile,
    List.reverse_reverse]

theorem mem_rstrip_imp {l : Str} {a : Nat} (h : a ∈ rstripHyphens l) : a ∈ l := by
  have := rstrip_append l
  rw [← this]
  exact List.mem_append_left _ h

theorem head?_rstrip {l : Str} {a : Nat} (h : (rstripHyphens l).head? = some a) :
    l.head? = some a := by
  rw [← rstrip_append l]
  exact head?_append_some h

theorem length_rstrip_le (l : Str) : (rstripHyphens l).length ≤ l.length := by
  conv_rhs => rw [← rstrip_append l]
  rw [List.length_append]
  omega

theorem rstrip_of_getLast {l : Str} (h : l.getLast? ≠ some 45) :
    rstripHyphens l = l := by
  rw [rstripHyphens]
  rw [← List.head?_reverse] at h
  rw [dropWhile_of_head, List.reverse_reverse]
  intro a ha
  rw [ha] at h
  simp only [beq_eq_false_iff_ne, ne_eq]
  intro hcontra
  exact h (by rw [hcontra])

/-! ### Facts about collapseRuns -/

theorem collapseRuns_cons_not_dashy {c : Nat} (r : Str) (h : dashy c = false) :
    collapseRuns (c :: r) = c :: collapseRuns r := by
  cases r with
  | nil => simp [collapseRuns, h]
  | cons c2 t => simp [collapseRuns, h]

theorem mem_collapseRuns {l : Str} {n : Nat} (h : n ∈ collapseRuns l) :
    n = 45 ∨ (n ∈ l ∧ dashy n = false) := by
  induction l with
  | nil => simp [collapseRuns] at h
  | cons c rest ih =>
    cases rest with
    | nil =>
      simp only [collapseRuns] at h
      split at h
      · simp only [List.mem_singleton] at h; exact Or.inl h
      · simp only [List.mem_singleton] at h
        subst h
        refine Or.inr ⟨List.mem_singleton_self _, ?_⟩
        simp_all
    | cons c2 t =>
      simp only [collapseRuns] at h
      split at h
      · split at h
        · rcases ih h with h45 | ⟨hm, hd⟩
          · exact Or.inl h45
          · exact Or.inr ⟨List.mem_cons_of_mem _ hm, hd⟩
        · rcases List.mem_cons.mp h with rfl | h'
          · exact Or.inl rfl
          · rcases ih h' with h45 | ⟨hm, hd⟩
            · exact Or.inl h45
            · exact Or.inr ⟨List.mem_cons_of_mem _ hm, hd⟩
      · rcases List.mem_cons.mp h with rfl | h'
        · refine Or.inr ⟨List.mem_cons_self _ _, ?_⟩
          simp_all
        · rcases ih h' with h45 | ⟨hm, hd⟩
          · exact Or.inl h45
          · exact Or.inr ⟨List.mem_cons_of_mem _ hm, hd⟩

theorem noAdjDashy_tail {a : Nat} {l : Str} (h : noAdjDashy (a :: l) = true) :
    noAdjDashy l = true := by
  cases l with
  | nil => rfl
  | cons b t => simp only [noAdjDashy, Bool.and_eq_true] at h; exact h.2

theorem noAdjDashy_cons_intro {a : Nat} {l : Str}
    (hh : ∀ b, l.head? = some b → (dashy a && dashy b) = false)
    (hl : noAdjDashy l = true) : noAdjDashy (a :: l) = true := by
  cases l with
  | nil => rfl
  | cons b t =>
    simp only [noAdjDashy, Bool.and_eq_true, Bool.not_eq_true', hh b rfl, hl,
      and_self]

theorem noAdjDashy_append_left {l₁ l₂ : Str}
    (h : noAdjDashy (l₁ ++ l₂) = true) : noAdjDashy l₁ = true := by
  induction l₁ with
  | nil => rfl
  | cons a t ih =>
    cases t with
    | nil => rfl
    | cons b t' =>
      simp only [List.cons_append, noAdjDashy, Bool.and_eq_true] at h ⊢
      exact ⟨h.1, by simpa using ih (by simpa using h.2)⟩

theorem noAdjDashy_dropWhile {p : Nat → Bool} {l : Str}
    (h : noAdjDashy l = true) : noAdjDashy (l.dropWhile p) = true := by
  induction l with
  | nil => exact h
  | cons a t ih =>
    rw [List.dropWhile_cons]
    split
    · exact ih (noAdjDashy_tail h)
    · exact h

theorem noAdjDashy_take {l : Str} (n : Nat) (h : noAdjDashy l = true) :
    noAdjDashy (l.take n) = true := by
  have h2 : noAdjDashy (l.take n ++ l.drop n) = true := by
    rw [List.take_append_drop]
    exact h
  exact noAdjDashy_append_left h2

theorem noAdjDashy_rstrip {l : Str} (h : noAdjDashy l = true) :
    noAdjDashy (rstripHyphens l) = true := by
  have h2 : noAdjDashy (rstripHyphens l ++
      (l.reverse.takeWhile (fun c => c == 45)).reverse) = true := by
    rw [rstrip_append]
    exact h
  exact noAdjDashy_append_left h2

theorem head?_collapseRuns_not_dashy {c2 : Nat} {r : Str} (h : dashy c2 = false) :
    ∀ b, (collapseRuns (c2 :: r)).head? = some b → dashy b = false := by
  intro b hb
  rw [collapseRuns_cons_not_dashy r h] at hb
  simp only [List.head?_cons, Option.some.injEq] at hb
  subst hb
  exact h

theorem noAdjDashy_collapseRuns (l : Str) : noAdjDashy (collapseRuns l) = true := by
  induction l with
  | nil => rfl
  | cons c rest ih =>
    cases rest with
    | nil =>
      simp only [collapseRuns]
      split <;> rfl
    | cons c2 t =>
      simp only [collapseRuns]
      split
      · split
        · exact ih
        · refine noAdjDashy_cons_intro ?_ ih
          intro b hb
          have hb' : dashy b = false :=
            head?_collapseRuns_not_dashy (by simp_all) b hb
          simp [hb']
      · refine noAdjDashy_cons_intro ?_ ih
        intro b hb
        simp_all

theorem collapseRuns_eq_self {l : Str}
    (hd : ∀ n ∈ l, dashy n = true → n = 45)
    (ha : noAdjDashy l = true) : collapseRuns l = l := by
  induction l with
  | nil => rfl
  | cons c rest ih =>
    cases rest with
    | nil =>
      simp only [collapseRuns]
      split
      · have := hd c (List.mem_singleton_self _) (by assumption)
        rw [this]
      · rfl
    | cons c2 t =>
      simp only [collapseRuns]
      have hrest : collapseRuns (c2 :: t) = c2 :: t :=
        ih (fun n hn => hd n (List.mem_cons_of_mem _ hn)) (noAdjDashy_tail ha)
      split
      · simp only [noAdjDashy, Bool.and_eq_true, Bool.not_eq_true',
          Bool.and_eq_false_iff] at ha
        rcases ha.1 with hc | hc2
        · simp_all
        · rw [if_neg (by simp [hc2]), hrest,
            hd c (List.mem_cons_self _ _) (by assumption)]
      · rw [hrest]

/-! ### The slugify output invariants -/

theorem mem_slugify_slug {s : Str} {n : Nat} (h : n ∈ slugify s) :
    isSlugCode n = true := by
  have h1 : n ∈ stripHyphens (collapseRuns ((s.map pyLower).filter keepCode)) :=
    List.mem_of_mem_take h
  rw [stripHyphens_eq_rstrip] at h1
  have h2 : n ∈ collapseRuns ((s.map pyLower).filter keepCode) :=
    mem_dropWhile_imp (mem_rstrip_imp h1)
  rcases mem_collapseRuns h2 with rfl | ⟨hm, hnd⟩
  · simp [isSlugCode]
  · have hk : keepCode n = true := (List.mem_filter.mp hm).2
    have hmap : n ∈ (s.map pyLower) := (List.mem_filter.mp hm).1
    rcases List.mem_map.mp hmap with ⟨m, _, rfl⟩
    rcases kept_lowered_is_slug_or_space _ hk (pyLower_not_upper m) with hs | hs
    · exact hs
    · exfalso
      have : dashy (pyLower m) = true := by simp [dashy, hs]
      simp [this] at hnd

theorem head?_slugify_not_hyphen {s : Str} {a : Nat}
    (h : (slugify s).head? = some a) : a ≠ 45 := by
  rw [slugify, List.head?_take] at h
  split at h
  · simp at h
  · rw [stripHyphens_eq_rstrip] at h
    have := head?_dropWhile_not (head?_rstrip h)
    simpa using this

theorem noAdjDashy_slugify (s : Str) : noAdjDashy (slugify s) = true := by
  rw [slugify, stripHyphens_eq_rstrip]
  exact noAdjDashy_take 50 (noAdjDashy_rstrip (noAdjDashy_dropWhile
    (noAdjDashy_collapseRuns _)))

theorem length_slugify_le (s : Str) : (slugify s).length ≤ 50 :=
  List.length_take_le _ _

theorem map_pyLower_of_slug {l : Str} (h : ∀ n ∈ l, isSlugCode n = true) :
    l.map pyLower = l := by
  induction l with
  | nil => rfl
  | cons a t ih =>
    rw [List.map_cons, (slug_code_facts a (h a (List.mem_cons_self _ _))).1,
      ih (fun n hn => h n (List.mem_cons_of_mem _ hn))]

theorem filter_keep_of_slug {l : Str} (h : ∀ n ∈ l, isSlugCode n = true) :
    l.filter keepCode = l :=
  List.filter_eq_self.mpr fun a ha => (slug_code_facts a (h a ha)).2.1

/-- Feeding a slugify output back through slugify only removes the trailing
hyphen that the 50-character truncation may have produced. -/
theorem slugify_slugify (s : Str) :
    slugify (slugify s) = rstripHyphens (slugify s) := by
  have hslug : ∀ n ∈ slugify s, isSlugCode n = true := fun n hn => mem_slugify_slug hn
  rw [slugify, map_pyLower_of_slug hslug, filter_keep_of_slug hslug,
    collapseRuns_eq_self (fun n hn => (slug_code_facts n (hslug n hn)).2.2.2.1)
      (noAdjDashy_slugify s),
    stripHyphens_eq_rstrip,
    dropWhile_of_head (fun a ha => by
      have := head?_slugify_not_hyphen ha
      simpa using this),
    List.take_of_length_le]
  exact le_trans (length_rstrip_le _) (length_slugify_le s)

/-- C3 counterexample: on slugCexCharset, slugify keeps the underscore (so the
output is not within lowercase letters, digits and hyphen) and the truncation
to 50 characters leaves a trailing hyphen. -/
theorem slugify_charset_claim_false :
    slugify slugCexCharset = 95 :: (List.replicate 48 97 ++ [45]) ∧
      ¬ ((∀ n ∈ slugify slugCexCharset, isClaimedSlugCode n = true) ∧
        (∀ a, (slugify slugCexCharset).getLast? = some a → a ≠ 45)) := by
  constructor
  · decide
  · intro ⟨hset, hlast⟩
    have h95 : (95 : Nat) ∈ slugify slugCexCharset := by decide
    have := hset 95 h95
    simp [isClaimedSlugCode] at this

/-- C3 amended: for ASCII input, slugify output is lowercase, uses only
lowercase letters, digits, underscore and hyphen, has no leading hyphen, and
has length at most 50.  (The claim's character set lacked the underscore, and
a trailing hyphen can survive via the truncation.) -/
theorem slugify_output_invariants (s : Str)
    (hascii : ∀ n ∈ s, isAsciiCode n = true) :
    (∀ n ∈ slugify s, isSlugCode n = true) ∧
      (∀ n ∈ slugify s, isUpperCode n = false) ∧
      (∀ a, (slugify s).head? = some a → a ≠ 45) ∧
      (slugify s).length ≤ 50 :=
  ⟨fun n hn => mem_slugify_slug hn,
   fun n hn => (slug_code_facts n (mem_slugify_slug hn)).2.2.2.2,
   fun _ ha => head?_slugify_not_hyphen ha,
   length_slugify_le s⟩

theorem slugify_output_invariants_witness :
    (∀ n ∈ slugify (str "Fix Login Bug"), isSlugCode n = true) ∧
      (∀ n ∈ slugify (str "Fix Login Bug"), isUpperCode n = false) ∧
      (∀ a, (slugify (str "Fix Login Bug")).head? = some a → a ≠ 45) ∧
      (slugify (str "Fix Login Bug")).length ≤ 50 :=
  slugify_output_invariants (str "Fix Login Bug") (by decide)

/-- C4 counterexample: slugify is not idempotent; on slugCexIdem the second
application removes the trailing hyphen that the truncation left. -/
theorem slugify_not_idempotent :
    slugify (slugify slugCexIdem) ≠ slugify slugCexIdem := by decide

/-- C4 amended: for ASCII input, a second slugify differs from the first only
by removing the trailing hyphen the 50-character truncation may have left;
in particular the two agree whenever the first output does not end in a
hyphen. -/
theorem slugify_idempotent_amended (s : Str)
    (hascii : ∀ n ∈ s, isAsciiCode n = true) :
    slugify (slugify s) = rstripHyphens (slugify s) ∧
      ((slugify s).getLast? ≠ some 45 → slugify (slugify s) = slugify s) :=
  ⟨slugify_slugify s,
   fun h => by rw [slugify_slugify s, rstrip_of_getLast h]⟩

theorem slugify_idempotent_amended_witness :
    slugify (slugify (str "Fix Login Bug")) = rstripHyphens (slugify (str "Fix Login Bug")) ∧
      ((slugify (str "Fix Login Bug")).getLast? ≠ some 45 →
        slugify (slugify (str "Fix Login Bug")) = slugify (str "Fix Login Bug")) :=
  slugify_idempotent_amended (str "Fix Login Bug") (by decide)

/-! ### C5 and C7 -/

/-- C5 counterexample: the claim fails on the code in two ways.  The
start-work.py client's get_transitions raises on an HTTP 500 instead of
returning the empty list, and the fetch-ticket.py client treats only raised
exceptions as failure, so a non-2xx status below 400 whose body carries
transitions yields that list, not the empty one. -/
theorem get_transitions_claim_false :
    sw_get_transitions (ReqOutcome.response 500 none) =
        Except.error (JiraError.httpStatus 500) ∧
      sw_get_transitions (ReqOutcome.response 500 none) ≠ Except.ok [] ∧
      ft_get_transitions
          (ReqOutcome.response 303 (some [⟨str "Done", str "31"⟩])) =
        [⟨str "Done", str "31"⟩] ∧
      ft_get_transitions
          (ReqOutcome.response 303 (some [⟨str "Done", str "31"⟩])) ≠ [] := by
  refine ⟨rfl, by decide, rfl, by decide⟩

/-- C5 amended: fetch-ticket.py's get_transitions returns the empty list on
every failure that raises (an HTTP 4xx/5xx status or a connection failure),
and callers see no exception; start-work.py's get_transitions instead
propagates such failures to its caller. -/
theorem get_transitions_failure_semantics :
    (∀ (s : Nat) (b : Option (List Transition)), 400 ≤ s ∧ s < 600 →
        ft_get_transitions (ReqOutcome.response s b) = []) ∧
      ft_get_transitions ReqOutcome.connFail = [] ∧
      (∀ (s : Nat) (b : Option (List Transition)), 400 ≤ s ∧ s < 600 →
        sw_get_transitions (ReqOutcome.response s b) =
          Except.error (JiraError.httpStatus s)) := by
  refine ⟨fun s b hs => ?_, rfl, fun s b hs => ?_⟩
  · simp [ft_get_transitions, raiseForStatus, hs]
  · simp [sw_get_transitions, raiseForStatus, hs]

theorem get_transitions_failure_semantics_witness :
    ft_get_transitions (ReqOutcome.response 500 (some [⟨str "Done", str "31"⟩])) = [] ∧
      sw_get_transitions (ReqOutcome.response 503 none) =
        Except.error (JiraError.httpStatus 503) :=
  ⟨get_transitions_failure_semantics.1 500 (some [⟨str "Done", str "31"⟩])
      (by decide),
   get_transitions_failure_semantics.2.2 503 none (by decide)⟩

/-- C7 counterexample: the claim fails on the start-work.py client, whose
get_issue sends no field projection parameter and propagates a 401 as the
raw HTTPError to its caller instead of reporting an authentication-specific
message and aborting. -/
theorem get_issue_claim_false :
    (sw_get_issue_request (str "https://x") (str "K-1")).fieldsParam = none ∧
      sw_get_issue (ReqOutcome.response 401 ()) =
        Except.error (JiraError.httpStatus 401) := by
  refine ⟨rfl, by decide⟩

/-- C7 amended: the claimed contract holds of fetch-ticket.py's get_issue:
the GET carries the fixed field projection; 401 aborts with the
authentication message, 404 aborts with the not-found message, other
4xx/5xx statuses abort with the raw error, a connection failure aborts with
the connection message, and any non-error response returns the decoded body
unmodified.  start-work.py's get_issue instead performs a bare GET and
propagates HTTP failures to main, which prints a generic failure and exits
non-zero. -/
theorem get_issue_error_handling {α : Type} (base key : Str) (s : Nat) (b : α) :
    (ft_get_issue_request base key).fieldsParam = some ft_get_issue_fields ∧
      ft_get_issue key (ReqOutcome.response 401 b) = Except.error FetchAbort.authFailed ∧
      ft_get_issue key (ReqOutcome.response 404 b) = Except.error (FetchAbort.notFound key) ∧
      (400 ≤ s ∧ s < 600 → s ≠ 401 → s ≠ 404 →
        ft_get_issue key (ReqOutcome.response s b) = Except.error (FetchAbort.httpError s)) ∧
      (¬ (400 ≤ s ∧ s < 600) →
        ft_get_issue key (ReqOutcome.response s b) = Except.ok b) ∧
      ft_get_issue key (ReqOutcome.connFail : ReqOutcome α) =
        Except.error FetchAbort.connectionError := by
  refine ⟨rfl, by simp [ft_get_issue], by simp [ft_get_issue], ?_, ?_, rfl⟩
  · intro hs h1 h4
    simp [ft_get_issue, hs, h1, h4]
  · intro hs
    simp [ft_get_issue, hs]

theorem get_issue_error_handling_witness :
    ft_get_issue (str "K-1") (ReqOutcome.response 500 (37 : Nat)) =
        Except.error (FetchAbort.httpError 500) ∧
      ft_get_issue (str "K-1") (ReqOutcome.response 200 (37 : Nat)) =
        Except.ok 37 :=
  ⟨(get_issue_error_handling (str "https://x") (str "K-1") 500 (37 : Nat)).2.2.2.1
      (by decide) (by decide) (by decide),
   (get_issue_error_handling (str "https://x") (str "K-1") 200 (37 : Nat)).2.2.2.2.1
      (by decide)⟩

theorem first_missing_none {c : Credentials} (h : first_missing c = none) :
    isMissingField c.url = false ∧ isMissingField c.email = false ∧
      isMissingField c.token = false := by
  unfold first_missing at h
  split at h
  · simp at h
  · split at h
    · simp at h
    · split at h
      · simp at h
      · simp_all

/-- C8 counterexample: with the work profile present but holding only a
url, and the environment holding the email and the token, get_config does
not fall back per field: it reports email as missing and exits non-zero. -/
theorem get_config_claim_false :
    cexEnv.jiraEmail = some (str "dev@example.com") ∧
      cexEnv.jiraToken = some (str "tok") ∧
      get_config true cexIni cexEnv (some (str "work")) =
        Except.error (str "email") :=
  ⟨rfl, rfl, by decide⟩

/-- C8 amended: when the config file exists and the resolved profile
section is present, all three fields come from that section and the
environment is ignored entirely; the environment supplies the whole triple
only when the file is absent or the section is not found; get_config never
returns a partial credential set, and when a field is missing it exits
non-zero reporting the first missing field in the order url, email,
token. -/
theorem get_config_resolution (fe : Bool) (ini : IniFile) (env env' : EnvVars)
    (p : Option Str) :
    (∀ sec, lookupSection ini (resolveProfileName ini p) = some sec →
        get_profile true ini env p =
          { url := sectionGet ini sec (str "url"),
            email := sectionGet ini sec (str "email"),
            token := sectionGet ini sec (str "token") } ∧
          get_profile true ini env p = get_profile true ini env' p) ∧
      (lookupSection ini (resolveProfileName ini p) = none →
        get_profile true ini env p = env_credentials env) ∧
      get_profile false ini env p = env_credentials env ∧
      (∀ c, get_config fe ini env p = Except.ok c →
        isMissingField c.url = false ∧ isMissingField c.email = false ∧
          isMissingField c.token = false) ∧
      (∀ k, get_config fe ini env p = Except.error k ↔
        first_missing (get_profile fe ini env p) = some k) := by
  refine ⟨fun sec hsec => ?_, fun hnone => ?_, ?_, fun c hc => ?_, fun k => ?_⟩
  · constructor <;> simp [get_profile, hsec]
  · simp [get_profile, hnone]
  · simp [get_profile]
  · unfold get_config at hc
    split at hc
    · exact absurd hc (by simp)
    · cases hc
      exact first_missing_none (by assumption)
  · unfold get_config
    split
    · simp_all
    · simp_all

theorem get_config_resolution_witness :
    get_profile true cexIni cexEnv (some (str "work")) =
        { url := some (str "https://jira.example.com"), email := none,
          token := none } ∧
      (get_config true cexIni cexEnv (some (str "work")) =
          Except.error (str "email") ↔
        first_missing (get_profile true cexIni cexEnv (some (str "work"))) =
          some (str "email")) :=
  ⟨((get_config_resolution true cexIni cexEnv cexEnv (some (str "work"))).1
      [(str "url", str "https://jira.example.com")] (by decide)).1,
   (get_config_resolution true cexIni cexEnv cexEnv (some (str "work"))).2.2.2.2
      (str "email")⟩

/-- C9: on the environment path with JIRA_URL unset, the url field is the
hard-coded default endpoint, which is non-empty, so validate_profile can
only report email or token as the missing field. -/
theorem env_url_default (fe : Bool) (ini : IniFile) (env : EnvVars)
    (p : Option Str)
    (henv : fe = false ∨ lookupSection ini (resolveProfileName ini p) = none)
    (hurl : env.jiraUrl = none) :
    (get_profile fe ini env p).url = some default_jira_url ∧
      default_jira_url ≠ [] ∧
      (first_missing (get_profile fe ini env p) = none ∨
        first_missing (get_profile fe ini env p) = some (str "email") ∨
        first_missing (get_profile fe ini env p) = some (str "token")) := by
  have hprof : get_profile fe ini env p = env_credentials env := by
    rcases henv with hfe | hnone
    · subst hfe; simp [get_profile]
    · cases fe
      · simp [get_profile]
      · simp [get_profile, hnone]
  rw [hprof]
  refine ⟨by simp [env_credentials, hurl], by decide, ?_⟩
  have hnotmiss : isMissingField (env_credentials env).url = false := by
    simp [env_credentials, hurl, isMissingField]
    decide
  unfold first_missing
  rw [hnotmiss]
  simp only [Bool.false_eq_true, if_false]
  split
  · exact Or.inr (Or.inl rfl)
  · split
    · exact Or.inr (Or.inr rfl)
    · exact Or.inl rfl

theorem env_url_default_witness :
    (get_profile false cexIni emptyEnv none).url = some default_jira_url ∧
      default_jira_url ≠ [] ∧
      (first_missing (get_profile false cexIni emptyEnv none) = none ∨
        first_missing (get_profile false cexIni emptyEnv none) = some (str "email") ∨
        first_missing (get_profile false cexIni emptyEnv none) = some (str "token")) :=
  env_url_default false cexIni emptyEnv none (Or.inl rfl) rfl

theorem collectTexts_eq_textNodes (a : Adf) :
    collectTexts a = (textNodes a).map nodeText :=
  @Adf.rec (fun a => collectTexts a = (textNodes a).map nodeText)
    (fun l => collectTextsList l = (textNodesList l).map nodeText)
    (fun oc => ∀ cs, oc = some cs →
      collectTextsList cs = (textNodesList cs).map nodeText)
    (fun ty tx content h3 => by
      cases content with
      | none =>
        show collectTexts (Adf.node ty tx none) =
          List.map nodeText (textNodes (Adf.node ty tx none))
        rw [collectTexts.eq_def, textNodes.eq_def]
        show (if ty = some (str "text") then [tx.getD []] else []) =
          List.map nodeText
            (if ty = some (str "text") then [Adf.node ty tx none] else [])
        by_cases h : ty = some (str "text")
        · simp [h, nodeText]
        · simp [if_neg h]
      | some cs =>
        show collectTexts (Adf.node ty tx (some cs)) =
          List.map nodeText (textNodes (Adf.node ty tx (some cs)))
        rw [collectTexts.eq_def, textNodes.eq_def]
        show (if ty = some (str "text") then [tx.getD []]
            else collectTextsList cs) =
          List.map nodeText (if ty = some (str "text")
            then [Adf.node ty tx (some cs)] else textNodesList cs)
        by_cases h : ty = some (str "text")
        · simp [h, nodeText]
        · rw [if_neg h, if_neg h]
          exact h3 cs rfl)
    (by
      show collectTextsList AdfList.nil =
        List.map nodeText (textNodesList AdfList.nil)
      rw [collectTextsList.eq_def, textNodesList.eq_def]
      rfl)
    (fun hd tl h1 h2 => by
      show collectTextsList (AdfList.cons hd tl) =
        List.map nodeText (textNodesList (AdfList.cons hd tl))
      rw [collectTextsList.eq_def, textNodesList.eq_def]
      show collectTexts hd ++ collectTextsList tl =
        List.map nodeText (textNodes hd ++ textNodesList tl)
      rw [List.map_append]
      rw [show collectTexts hd = List.map nodeText (textNodes hd) from h1]
      rw [show collectTextsList tl =
        List.map nodeText (textNodesList tl) from h2])
    (fun cs h => absurd h (by simp))
    (fun val h2 cs hcs => by cases hcs; exact h2)
    a

theorem collectTextsList_eq_textNodesList (l : AdfList) :
    collectTextsList l = (textNodesList l).map nodeText :=
  @AdfList.rec (fun a => collectTexts a = (textNodes a).map nodeText)
    (fun l => collectTextsList l = (textNodesList l).map nodeText)
    (fun oc => ∀ cs, oc = some cs →
      collectTextsList cs = (textNodesList cs).map nodeText)
    (fun ty tx content h3 => by
      cases content with
      | none =>
        show collectTexts (Adf.node ty tx none) =
          List.map nodeText (textNodes (Adf.node ty tx none))
        rw [collectTexts.eq_def, textNodes.eq_def]
        show (if ty = some (str "text") then [tx.getD []] else []) =
          List.map nodeText
            (if ty = some (str "text") then [Adf.node ty tx none] else [])
        by_cases h : ty = some (str "text")
        · simp [h, nodeText]
        · simp [if_neg h]
      | some cs =>
        show collectTexts (Adf.node ty tx (some cs)) =
          List.map nodeText (textNodes (Adf.node ty tx (some cs)))
        rw [collectTexts.eq_def, textNodes.eq_def]
        show (if ty = some (str "text") then [tx.getD []]
            else collectTextsList cs) =
          List.map nodeText (if ty = some (str "text")
            then [Adf.node ty tx (some cs)] else textNodesList cs)
        by_cases h : ty = some (str "text")
        · simp [h, nodeText]
        · rw [if_neg h, if_neg h]
          exact h3 cs rfl)
    (by
      show collectTextsList AdfList.nil =
        List.map nodeText (textNodesList AdfList.nil)
      rw [collectTextsList.eq_def, textNodesList.eq_def]
      rfl)
    (fun hd tl h1 h2 => by
      show collectTextsList (AdfList.cons hd tl) =
        List.map nodeText (textNodesList (AdfList.cons hd tl))
      rw [collectTextsList.eq_def, textNodesList.eq_def]
      show collectTexts hd ++ collectTextsList tl =
        List.map nodeText (textNodes hd ++ textNodesList tl)
      rw [List.map_append]
      rw [show collectTexts hd = List.map nodeText (textNodes hd) from h1]
      rw [show collectTextsList tl =
        List.map nodeText (textNodesList tl) from h2])
    (fun cs h => absurd h (by simp))
    (fun val h2 cs hcs => by cases hcs; exact h2)
    l

/-! ### C10 -/

/-- C10: extract_text_from_adf returns exactly the text fields of the
descendant nodes of type text, in depth-first document order, joined by
single spaces; a text node contributes only its own text field and its
children are never visited; a document with no text nodes yields the empty
string. -/
theorem extract_text_spec :
    (forall a : Adf, extract_text_from_adf a =
        List.intercalate (str " ") ((textNodes a).map nodeText)) ∧
      (∀ (tx : Option Str) (cs : Option AdfList),
        textNodes (Adf.node (some (str "text")) tx cs) =
            [Adf.node (some (str "text")) tx cs] ∧
          collectTexts (Adf.node (some (str "text")) tx cs) = [tx.getD []]) ∧
      (∀ a : Adf, textNodes a = [] → extract_text_from_adf a = []) := by
  refine ⟨fun a => ?_, fun tx cs => ⟨?_, ?_⟩, fun a ha => ?_⟩
  · rw [extract_text_from_adf, collectTexts_eq_textNodes]
  · rw [textNodes.eq_def]; simp
  · rw [collectTexts.eq_def]; simp
  · rw [extract_text_from_adf, collectTexts_eq_textNodes, ha]
    rfl

theorem extract_text_spec_witness :
    extract_text_from_adf sampleDoc =
        List.intercalate (str " ") ((textNodes sampleDoc).map nodeText) ∧
      textNodes (Adf.node (some (str "text")) (some (str "now"))
          (some (AdfList.cons (Adf.node (some (str "text"))
            (some (str "hidden")) none) AdfList.nil))) =
        [Adf.node (some (str "text")) (some (str "now"))
          (some (AdfList.cons (Adf.node (some (str "text"))
            (some (str "hidden")) none) AdfList.nil))] ∧
      extract_text_from_adf (Adf.node (some (str "doc")) none none) = [] :=
  ⟨extract_text_spec.1 sampleDoc,
   (extract_text_spec.2.1 (some (str "now")) (some (AdfList.cons
      (Adf.node (some (str "text")) (some (str "hidden")) none)
      AdfList.nil))).1,
   extract_text_spec.2.2 (Adf.node (some (str "doc")) none none) rfl⟩

example : determine_branch_type (str "Bug") = str "bugfix" := by decide

example : determine_branch_type (str "UnknownType") = str "feature" := by decide

/-! ### C1, C2 and C6 -/

/-- C1: when the ticket fetch comes back HTTP 404 (resource not found), the
run exits with code 1, its whole trace is the fetch GET, so no git command
or branch operation is attempted and nothing is POSTed to the remote
ticket, and the local repository state is unchanged. -/
theorem fetch_not_found_aborts_before_branch (args : Args) (w : World)
    (gw : GitWorld) (g0 : GitState) (issue : Issue)
    (hf : w.fetch = ReqOutcome.response 404 issue) :
    (mainRun args w gw g0).1.exitCode = 1 ∧
      (mainRun args w gw g0).1.events = [Ev.fetchGet] ∧
      (∀ e ∈ (mainRun args w gw g0).1.events,
        isGitEv e = false ∧ isRemoteWriteEv e = false) ∧
      (mainRun args w gw g0).1.branch = none ∧
      (mainRun args w gw g0).2 = g0 := by
  have h : sw_get_issue w.fetch = Except.error (JiraError.httpStatus 404) := by
    rw [hf, sw_get_issue, raiseForStatus]
    simp
  simp only [mainRun, h]
  simp [isGitEv, isRemoteWriteEv]

theorem fetch_not_found_aborts_before_branch_witness :
    (mainRun sampleArgs w404 gwOk gMain).1.exitCode = 1 ∧
      (mainRun sampleArgs w404 gwOk gMain).1.events = [Ev.fetchGet] ∧
      (∀ e ∈ (mainRun sampleArgs w404 gwOk gMain).1.events,
        isGitEv e = false ∧ isRemoteWriteEv e = false) ∧
      (mainRun sampleArgs w404 gwOk gMain).1.branch = none ∧
      (mainRun sampleArgs w404 gwOk gMain).2 = gMain :=
  fetch_not_found_aborts_before_branch sampleArgs w404 gwOk gMain sampleIssue rfl

/-- C2: with a successful fetch and working git commands, the run always
reaches the success summary printing the Ready line and finishes with exit
code 0, the created branch staying in the repository; when the
status-transition call raises, main catches it and prints the status
warning, and when the comment POST raises, main catches it and prints the
comment warning — neither failure rolls the branch back or changes the
exit code. -/
theorem create_branch_of_ok (gw : GitWorld) (st : GitState)
    (k sm t : Str) (hrepo : gw.isRepo = true) (hco : gw.checkoutOk = true) :
    create_branch gw st k sm t =
      if st.branches.contains (branch_name k sm t) then
        (some (branch_name k sm t),
          { st with current := some (branch_name k sm t) },
          [.gitRevParse, .gitBranchList,
            .gitCheckoutExisting (branch_name k sm t)])
      else
        (some (branch_name k sm t),
          { branches := branch_name k sm t :: st.branches,
            current := some (branch_name k sm t) },
          [.gitRevParse, .gitBranchList,
            .gitCheckoutNew (branch_name k sm t)]) := by
  rw [create_branch, hrepo, hco]
  simp

theorem main_create_branch (args : Args) (issue : Issue) (gw : GitWorld)
    (g0 : GitState) (hrepo : gw.isRepo = true) (hco : gw.checkoutOk = true) :
    create_branch gw g0 args.ticket (issue.summary.getD (str "no-summary"))
        (args.branchType.getD (determine_branch_type
          (issue.issuetypeName.getD (str "Story")))) =
      if g0.branches.contains (main_branch_name args issue) then
        (some (main_branch_name args issue),
          { g0 with current := some (main_branch_name args issue) },
          [.gitRevParse, .gitBranchList,
            .gitCheckoutExisting (main_branch_name args issue)])
      else
        (some (main_branch_name args issue),
          { branches := main_branch_name args issue :: g0.branches,
            current := some (main_branch_name args issue) },
          [.gitRevParse, .gitBranchList,
            .gitCheckoutNew (main_branch_name args issue)]) :=
  create_branch_of_ok gw g0 _ _ _ hrepo hco

/-- C2: with a successful fetch and working git commands, the run always
reaches the success summary printing the Ready line and finishes with exit
code 0, the created branch staying in the repository; when the
status-transition call raises, main catches it and prints the status
warning, and when the comment POST raises, main catches it and prints the
comment warning — neither failure rolls the branch back or changes the
exit code. -/
theorem advisory_failures_still_ready (args : Args) (w : World)
    (gw : GitWorld) (g0 : GitState) (issue : Issue)
    (hf : sw_get_issue w.fetch = Except.ok issue)
    (hrepo : gw.isRepo = true) (hco : gw.checkoutOk = true)
    (hs : args.noStatusUpdate = false) (hc : args.noComment = false) :
    (mainRun args w gw g0).1.exitCode = 0 ∧
      (mainRun args w gw g0).1.branch = some (main_branch_name args issue) ∧
      Ev.printReady (ready_message args.ticket) ∈ (mainRun args w gw g0).1.events ∧
      main_branch_name args issue ∈ (mainRun args w gw g0).2.branches ∧
      (∀ e, (transition_issue w.transitionsGet w.transitionPost
          (str "In Progress")).result = Except.error e →
        Ev.warnStatus ∈ (mainRun args w gw g0).1.events) ∧
      (∀ e, add_comment w.commentPost = Except.error e →
        Ev.warnComment ∈ (mainRun args w gw g0).1.events) := by
  have hcb := main_create_branch args issue gw g0 hrepo hco
  by_cases hmem : g0.branches.contains (main_branch_name args issue) = true
  · rw [if_pos hmem] at hcb
    have hrun : mainRun args w gw g0 =
      ({ exitCode := 0,
         events := Ev.fetchGet :: [.gitRevParse, .gitBranchList,
             .gitCheckoutExisting (main_branch_name args issue)] ++
           status_update_events w ++ add_comment_events w ++
           [Ev.printReady (ready_message args.ticket)],
         branch := some (main_branch_name args issue) },
       { g0 with current := some (main_branch_name args issue) }) := by
      simp only [mainRun, hf, hcb, hs, hc, if_false, Bool.false_eq_true]
    rw [hrun]
    refine ⟨rfl, rfl, by simp, by simpa using hmem, fun e he => ?_,
      fun e he => ?_⟩
    · simp [status_update_events, he]
    · simp [add_comment_events, he]
  · rw [if_neg hmem] at hcb
    have hrun : mainRun args w gw g0 =
      ({ exitCode := 0,
         events := Ev.fetchGet :: [.gitRevParse, .gitBranchList,
             .gitCheckoutNew (main_branch_name args issue)] ++
           status_update_events w ++ add_comment_events w ++
           [Ev.printReady (ready_message args.ticket)],
         branch := some (main_branch_name args issue) },
       { branches := main_branch_name args issue :: g0.branches,
         current := some (main_branch_name args issue) }) := by
      simp only [mainRun, hf, hcb, hs, hc, if_false, Bool.false_eq_true]
    rw [hrun]
    refine ⟨rfl, rfl, by simp, List.mem_cons_self _ _, fun e he => ?_,
      fun e he => ?_⟩
    · simp [status_update_events, he]
    · simp [add_comment_events, he]

theorem advisory_failures_still_ready_witness :
    (mainRun sampleArgs wAdvisory500 gwOk gMain).1.exitCode = 0 ∧
      (mainRun sampleArgs wAdvisory500 gwOk gMain).1.branch =
        some (main_branch_name sampleArgs sampleIssue) ∧
      Ev.printReady (ready_message sampleArgs.ticket) ∈
        (mainRun sampleArgs wAdvisory500 gwOk gMain).1.events ∧
      main_branch_name sampleArgs sampleIssue ∈
        (mainRun sampleArgs wAdvisory500 gwOk gMain).2.branches ∧
      (∀ e, (transition_issue wAdvisory500.transitionsGet
          wAdvisory500.transitionPost (str "In Progress")).result =
            Except.error e →
        Ev.warnStatus ∈ (mainRun sampleArgs wAdvisory500 gwOk gMain).1.events) ∧
      (∀ e, add_comment wAdvisory500.commentPost = Except.error e →
        Ev.warnComment ∈ (mainRun sampleArgs wAdvisory500 gwOk gMain).1.events) :=
  advisory_failures_still_ready sampleArgs wAdvisory500 gwOk gMain sampleIssue
    (by decide) rfl rfl rfl rfl

/-- C6: with the same arguments and world, two consecutive runs derive
the same branch name; the first run produces it, the second finds the
local branch already present, checks it out (the existing-branch git path)
instead of failing, and leaves the repository state unchanged. -/
theorem rerun_same_branch_checkout_existing (args : Args) (w : World)
    (gw : GitWorld) (g0 : GitState) (issue : Issue)
    (hf : sw_get_issue w.fetch = Except.ok issue)
    (hrepo : gw.isRepo = true) (hco : gw.checkoutOk = true) :
    (mainRun args w gw g0).1.branch = some (main_branch_name args issue) ∧
      (mainRun args w gw (mainRun args w gw g0).2).1.branch =
        some (main_branch_name args issue) ∧
      Ev.gitCheckoutExisting (main_branch_name args issue) ∈
        (mainRun args w gw (mainRun args w gw g0).2).1.events ∧
      (mainRun args w gw (mainRun args w gw g0).2).2 =
        (mainRun args w gw g0).2 := by
  by_cases hmem : g0.branches.contains (main_branch_name args issue) = true
  · have hcb1 := main_create_branch args issue gw g0 hrepo hco
    rw [if_pos hmem] at hcb1
    have hrun1 : (mainRun args w gw g0).2 =
        { g0 with current := some (main_branch_name args issue) } ∧
        (mainRun args w gw g0).1.branch = some (main_branch_name args issue) := by
      simp only [mainRun, hf, hcb1]
      exact ⟨trivial, trivial⟩
    have hcb2 := main_create_branch args issue gw
      { g0 with current := some (main_branch_name args issue) } hrepo hco
    rw [if_pos hmem] at hcb2
    rw [hrun1.1]
    have hrun2 : mainRun args w gw
        { g0 with current := some (main_branch_name args issue) } =
      ({ exitCode := 0,
         events := Ev.fetchGet :: [.gitRevParse, .gitBranchList,
             .gitCheckoutExisting (main_branch_name args issue)] ++
           (if args.noStatusUpdate then [] else status_update_events w) ++
           (if args.noComment then [] else add_comment_events w) ++
           [Ev.printReady (ready_message args.ticket)],
         branch := some (main_branch_name args issue) },
       { g0 with current := some (main_branch_name args issue) }) := by
      simp only [mainRun, hf, hcb2]
    rw [hrun2]
    exact ⟨hrun1.2, rfl, by simp, rfl⟩
  · have hcb1 := main_create_branch args issue gw g0 hrepo hco
    rw [if_neg hmem] at hcb1
    have hrun1 : (mainRun args w gw g0).2 =
        { branches := main_branch_name args issue :: g0.branches,
          current := some (main_branch_name args issue) } ∧
        (mainRun args w gw g0).1.branch = some (main_branch_name args issue) := by
      simp only [mainRun, hf, hcb1]
      exact ⟨trivial, trivial⟩
    have hmem2 : (GitState.branches
        { branches := main_branch_name args issue :: g0.branches,
          current := some (main_branch_name args issue) }).contains
        (main_branch_name args issue) = true := by
      simp
    have hcb2 := main_create_branch args issue gw
      { branches := main_branch_name args issue :: g0.branches,
        current := some (main_branch_name args issue) } hrepo hco
    rw [if_pos hmem2] at hcb2
    rw [hrun1.1]
    have hrun2 : mainRun args w gw
        { branches := main_branch_name args issue :: g0.branches,
          current := some (main_branch_name args issue) } =
      ({ exitCode := 0,
         events := Ev.fetchGet :: [.gitRevParse, .gitBranchList,
             .gitCheckoutExisting (main_branch_name args issue)] ++
           (if args.noStatusUpdate then [] else status_update_events w) ++
           (if args.noComment then [] else add_comment_events w) ++
           [Ev.printReady (ready_message args.ticket)],
         branch := some (main_branch_name args issue) },
       { branches := main_branch_name args issue :: g0.branches,
         current := some (main_branch_name args issue) }) := by
      simp only [mainRun, hf, hcb2]
    rw [hrun2]
    exact ⟨hrun1.2, rfl, by simp, rfl⟩

theorem rerun_same_branch_checkout_existing_witness :
    (mainRun sampleArgs wAdvisory500 gwOk gMain).1.branch =
        some (main_branch_name sampleArgs sampleIssue) ∧
      (mainRun sampleArgs wAdvisory500 gwOk
          (mainRun sampleArgs wAdvisory500 gwOk gMain).2).1.branch =
        some (main_branch_name sampleArgs sampleIssue) ∧
      Ev.gitCheckoutExisting (main_branch_name sampleArgs sampleIssue) ∈
        (mainRun sampleArgs wAdvisory500 gwOk
          (mainRun sampleArgs wAdvisory500 gwOk gMain).2).1.events ∧
      (mainRun sampleArgs wAdvisory500 gwOk
          (mainRun sampleArgs wAdvisory500 gwOk gMain).2).2 =
        (mainRun sampleArgs wAdvisory500 gwOk gMain).2 :=
  rerun_same_branch_checkout_existing sampleArgs wAdvisory500 gwOk gMain
    sampleIssue (by decide) rfl rfl

end AgentSkills
